import Mathlib

/-!
# Verification of `CheckMessagesFromL2ToMES.py`

A shallow embedding of the single-shot threshold monitor
`src/CheckMessagesFromL2ToMES.py` and proofs about it.

The script reads configuration from the environment, runs one Oracle
count query, compares the count to a threshold, optionally sends an
email alert, and writes six `set_output` key/value pairs (the
OutcomeRecord) before returning a process exit code.

Modelling decisions:
* Environment variables become an `Env` record of `Option String`
  fields (`none` = unset).
* The Oracle interaction (connect + execute + fetchone) is an oracle
  parameter `db : Except Unit (Option (Option Int))`: `.error` is any
  exception raised inside the `try` block of `main` by the database
  driver; `.ok r` is the `fetchone()` result, where `none` models no
  row and `some none` a NULL first column.
* The SMTP transport is an oracle `SmtpNet` of three booleans for the
  connect/starttls, login, and delivery steps.  `smtplib`'s documented
  behaviour of raising `SMTPRecipientsRefused` when the message has no
  usable recipient address is part of the transport model; delivery
  success does not depend on the message text.
* `set_output` writes are modelled as the list of (name, value)
  invocations of the Result Sink, in call order; whether the sink file
  `GITHUB_OUTPUT` is configured is external I/O below the record level.
* `int(...)` on a string is modelled by `pyInt?`, following Python's
  grammar: optional surrounding whitespace, optional sign, digits with
  single underscores allowed between digits.
-/

namespace CheckMessages

/-- Environment-variable configuration visible to the script.
`none` models an unset variable; `some ""` models a set-but-empty one. -/
structure Env where
  oracle_user : Option String
  oracle_password : Option String
  oracle_dsn : Option String
  threshold_value : Option String
  message_status : Option String
  message_table : Option String
  smtp_server : Option String
  smtp_port : Option String
  smtp_user : Option String
  smtp_password : Option String
  from_email : Option String
  to_emails : Option String
  deriving Repr, DecidableEq

/-- Outcome of the three externally-visible SMTP transport steps:
`SMTP(server, port)` + `starttls()`, `login(user, password)`, and the
actual delivery of the message to its recipients. -/
structure SmtpNet where
  connectOk : Bool
  authOk : Bool
  deliverOk : Bool
  deriving Repr, DecidableEq

/-- Failure modes of `send_email_alert`'s body; every one of them is an
`Exception` caught by the function's `except` clause. -/
inductive EmailErr where
  | missingConfig (key : String)
  | badPort
  | connectFailed
  | authFailed
  | recipientsRefused
  | sendFailed
  deriving Repr, DecidableEq

/-- Python's `str.strip()`: remove leading and trailing whitespace. -/
def pyStrip (s : String) : String :=
  String.mk (((s.data.dropWhile Char.isWhitespace).reverse.dropWhile Char.isWhitespace).reverse)

/-- Python's truthiness of a string: `False` exactly for the empty
string. -/
def pyNonEmpty (s : String) : Bool := !s.data.isEmpty

/-- Helper for `splitComma`, accumulating the current field reversed. -/
def splitCommaAux : List Char → List Char → List String
  | [], acc => [String.mk acc.reverse]
  | ',' :: rest, acc => String.mk acc.reverse :: splitCommaAux rest []
  | c :: rest, acc => splitCommaAux rest (c :: acc)

/-- Python's `str.split(",")`: the empty string yields `[""]`. -/
def splitComma (s : String) : List String := splitCommaAux s.data []

/-- Value of a decimal digit character. -/
def pyDigitVal (c : Char) : Nat := c.toNat - '0'.toNat

/-- Tail of a Python integer-literal digit string: digits, with a single
underscore allowed only between two digits. -/
def pyDigitsRest : List Char → Bool
  | [] => true
  | ['_'] => false
  | '_' :: c :: rest => c.isDigit && pyDigitsRest rest
  | c :: rest => c.isDigit && pyDigitsRest rest

/-- A valid Python digit string: nonempty, starts with a digit, single
underscores only between digits. -/
def pyDigitsOk : List Char → Bool
  | [] => false
  | c :: rest => c.isDigit && pyDigitsRest rest

/-- Numeric value of a digit string, ignoring underscores. -/
def pyDigitsVal (l : List Char) : Nat :=
  l.foldl (fun acc c => if c = '_' then acc else 10 * acc + pyDigitVal c) 0

/-- Python's `int(s)` on a string: strips whitespace, then an optional
sign followed by a digit string; `none` models the `ValueError`. -/
def pyInt? (s : String) : Option Int :=
  match (pyStrip s).data with
  | '+' :: rest => if pyDigitsOk rest then some (Int.ofNat (pyDigitsVal rest)) else none
  | '-' :: rest => if pyDigitsOk rest then some (-(Int.ofNat (pyDigitsVal rest))) else none
  | rest => if pyDigitsOk rest then some (Int.ofNat (pyDigitsVal rest)) else none

/-- Python truthiness of an optional environment string: `None` and the
empty string are falsy, everything else (even whitespace) is truthy. -/
def truthy : Option String → Bool
  | none => false
  | some s => pyNonEmpty s

/-- Lines 102–111 of `main`: `THRESHOLD_VALUE` handling.  Returns the
effective threshold together with whether a fallback warning was
logged. -/
def parseThresholdW (tv : Option String) : Int × Bool :=
  let threshold_str := pyStrip (tv.getD "100")
  if pyNonEmpty threshold_str = false then
    (100, true)
  else
    match pyInt? threshold_str with
    | some n => (n, false)
    | none => (100, true)

/-- The effective threshold a run of `main` uses. -/
def mainThreshold (env : Env) : Int :=
  (parseThresholdW env.threshold_value).1

/-- Line 114 of `main`: `all([user, password, dsn])` over the mandatory
Oracle configuration. -/
def mandatoryOk (env : Env) : Bool :=
  truthy env.oracle_user && truthy env.oracle_password && truthy env.oracle_dsn

/-- Line 126 of `main`: the metric name built from `MESSAGE_STATUS`
(default `"0"`). -/
def metricNameOf (env : Env) : String :=
  "L2_TO_MES_MESSAGES_STATUS_" ++ env.message_status.getD "0" ++ "_LAST_15_MIN"

/-- Lines 129–134 of `main`: the SQL text, a fixed constant that uses
neither `MESSAGE_TABLE` nor `MESSAGE_STATUS`. -/
def sql : String :=
  "\n    select count(*) \n    from mes_send\n    where status = 0\n    and t_created > sysdate - (10/(24*60))\n    "

/-- Line 143 of `main`:
`int(result[0] if result and result[0] else 0)`.  `none` is an empty
fetch, `some none` a NULL column, `some (some v)` a value `v` (falsy
when 0). -/
def coerceCount (result : Option (Option Int)) : Int :=
  match result with
  | none => 0
  | some none => 0
  | some (some v) => if v = 0 then 0 else v

/-- Subject line built by `send_email_alert`. -/
def emailSubject (metric_name : String) : String :=
  "ALERT: " ++ metric_name ++ " Threshold Exceeded"

/-- Message body built by `send_email_alert`. -/
def emailBodyText (metric_name : String) (metric_value threshold : Int) (utc_time : String) : String :=
  "Alert: Message Count Threshold Exceeded\n\nMetric: " ++ metric_name ++
  "\nCurrent Count: " ++ toString metric_value ++
  "\nThreshold: " ++ toString threshold ++
  "\nTime (UTC): " ++ utc_time ++
  "\n\nThe number of messages with the specified status has exceeded the configured threshold.\nPlease investigate the L2 to MES message processing system.\n\nThis is an automated alert from the CheckMessagesFromL2ToMES monitoring script."

/-- Recipient addresses `smtplib` can actually use, out of the strings
obtained by splitting `TO_EMAILS` on commas: blank entries contribute no
address to the `To:` header. -/
def usableRecipients (recipients : List String) : List String :=
  recipients.filter (fun r => pyNonEmpty (pyStrip r))

/-- The SMTP session of lines 80–83: connect + `starttls`, `login`,
`send_message`.  `send_message` raises `SMTPRecipientsRefused` when the
message carries no usable recipient address; otherwise delivery succeeds
or fails according to the transport.  Delivery does not depend on the
message text. -/
def smtpSend (net : SmtpNet) (recipients : List String) : Except EmailErr Unit :=
  if net.connectOk = false then .error .connectFailed
  else if net.authOk = false then .error .authFailed
  else if (usableRecipients recipients).isEmpty then .error .recipientsRefused
  else if net.deliverOk = false then .error .sendFailed
  else .ok ()

/-- Body of the `try` block of `send_email_alert` (lines 47–86): read
the six SMTP configuration values (`os.environ[...]` raises `KeyError`
when unset; `int(...)` on `SMTP_PORT` raises `ValueError` when
non-numeric), build the message, and run the SMTP session. -/
def sendEmailBody (metric_name : String) (metric_value threshold : Int) (utc_time : String)
    (env : Env) (net : SmtpNet) : Except EmailErr Unit :=
  match env.smtp_server with
  | none => .error (.missingConfig "SMTP_SERVER")
  | some _smtp_server =>
    match pyInt? (env.smtp_port.getD "587") with
    | none => .error .badPort
    | some _smtp_port =>
      match env.smtp_user with
      | none => .error (.missingConfig "SMTP_USER")
      | some _smtp_user =>
        match env.smtp_password with
        | none => .error (.missingConfig "SMTP_PASSWORD")
        | some _smtp_password =>
          match env.from_email with
          | none => .error (.missingConfig "FROM_EMAIL")
          | some _from_email =>
            match env.to_emails with
            | none => .error (.missingConfig "TO_EMAILS")
            | some to_raw =>
              let to_emails := splitComma to_raw
              let _msg := emailBodyText metric_name metric_value threshold utc_time
              smtpSend net to_emails

/-- `send_email_alert` (lines 45–90): runs the body and converts any
raised failure into a `false` return. -/
def send_email_alert (metric_name : String) (metric_value threshold : Int) (utc_time : String)
    (env : Env) (net : SmtpNet) : Bool :=
  match sendEmailBody metric_name metric_value threshold utc_time env net with
  | .ok _ => true
  | .error _ => false

/-- Spec-side characterisation of a confirmed delivery: all six SMTP
configuration values present, a numeric port, at least one usable
recipient, and every transport step succeeding. -/
def confirmedDelivery (env : Env) (net : SmtpNet) : Bool :=
  env.smtp_server.isSome && (pyInt? (env.smtp_port.getD "587")).isSome &&
  env.smtp_user.isSome && env.smtp_password.isSome && env.from_email.isSome &&
  (match env.to_emails with
   | none => false
   | some s => !(usableRecipients (splitComma s)).isEmpty) &&
  net.connectOk && net.authOk && net.deliverOk

/-- Everything externally observable about one run of `main`:
the process exit code, the `set_output` invocations in order, the SQL
text handed to the database (or `none` when no connection was ever
attempted), and the arguments of each `send_email_alert` call. -/
structure MainResult where
  exitCode : Nat
  outputs : List (String × String)
  sqlExecuted : Option String
  emailCalls : List (String × Int × Int × String)
  deriving Repr, DecidableEq

/-- `main` (lines 93–189), as a function of the environment, the
database oracle, the SMTP transport oracle, and the current UTC time
string.  The `table_name` read on line 124 is kept to record that
`MESSAGE_TABLE` is read and then never used. -/
def main (env : Env) (db : Except Unit (Option (Option Int))) (net : SmtpNet)
    (now : String) : MainResult :=
  let threshold := mainThreshold env
  if mandatoryOk env = false then
    { exitCode := 1, outputs := [], sqlExecuted := none, emailCalls := [] }
  else
    let _table_name := env.message_table.getD "L2_TO_MES_MESSAGES"
    let metric_name := metricNameOf env
    match db with
    | .ok result =>
      let metric_value := coerceCount result
      let alert := decide (metric_value ≥ threshold)
      let email_sent :=
        if alert then send_email_alert metric_name metric_value threshold now env net
        else false
      { exitCode := 0
        outputs :=
          [("alert", if alert then "true" else "false"),
           ("metric_name", metric_name),
           ("metric_value", toString metric_value),
           ("threshold", toString threshold),
           ("utc_time", now),
           ("email_sent", if email_sent then "true" else "false")]
        sqlExecuted := some sql
        emailCalls :=
          if alert then [(metric_name, metric_value, threshold, now)] else [] }
    | .error _ =>
      { exitCode := 1
        outputs :=
          [("alert", "true"),
           ("metric_name", "ORACLE_CHECK_FAILED"),
           ("metric_value", "0"),
           ("threshold", toString threshold),
           ("utc_time", now),
           ("email_sent", "false")]
        sqlExecuted := some sql
        emailCalls := [("ORACLE_CHECK_FAILED", 0, threshold, now)] }

/-! ## Concrete inputs used by witnesses and counterexamples -/

/-- A transport where every SMTP step succeeds. -/
def netAllOk : SmtpNet := { connectOk := true, authOk := true, deliverOk := true }

/-- A fully-populated configuration with threshold 100. -/
def envFull : Env :=
  { oracle_user := some "scott"
    oracle_password := some "tiger"
    oracle_dsn := some "dbhost:1521/orcl"
    threshold_value := some "100"
    message_status := some "0"
    message_table := some "L2_TO_MES_MESSAGES"
    smtp_server := some "smtp.example.com"
    smtp_port := some "587"
    smtp_user := some "alerts"
    smtp_password := some "hunter2"
    from_email := some "alerts@example.com"
    to_emails := some "ops@example.com" }

/-- A configuration with every environment variable unset. -/
def envEmpty : Env :=
  { oracle_user := none
    oracle_password := none
    oracle_dsn := none
    threshold_value := none
    message_status := none
    message_table := none
    smtp_server := none
    smtp_port := none
    smtp_user := none
    smtp_password := none
    from_email := none
    to_emails := none }

/-! ## Helper lemmas -/

/-- `int(result[0] if result and result[0] else 0)` on a present value is
that value: the truthiness branch only redirects `0` to `0`. -/
theorem coerceCount_some (v : Int) : coerceCount (some (some v)) = v := by
  by_cases h : v = 0 <;> simp [coerceCount, h]

/-- `send_email_alert` succeeds exactly on a confirmed delivery: all six
SMTP configuration values present, numeric port, a usable recipient, and
all transport steps succeeding. -/
theorem send_email_alert_eq_confirmed (mn : String) (mv th : Int) (ut : String)
    (env : Env) (net : SmtpNet) :
    send_email_alert mn mv th ut env net = confirmedDelivery env net := by
  obtain ⟨ou, op, od, tv, ms, mt, ss, sp, su, spw, fe, te⟩ := env
  obtain ⟨c, a, d⟩ := net
  simp only [send_email_alert, sendEmailBody, confirmedDelivery, smtpSend]
  cases ss <;> cases hp : pyInt? (sp.getD "587") <;> cases su <;> cases spw <;>
    cases fe <;> cases te <;> simp [hp] <;> cases c <;> cases a <;> cases d <;>
    simp <;> split_ifs <;> simp_all

/-! ## Claim theorems -/

/-- C3: for every non-negative metric value, the alert decision of
`main` (line 146, `alert = metric_value >= threshold`) satisfies
`triggered = (value >= threshold)`, read off the `alert` output field;
in particular the boundary case `value = threshold` triggers. -/
theorem C3_alert_iff_value_ge_threshold (env : Env) (net : SmtpNet) (now : String)
    (value : Int) (hok : mandatoryOk env = true) (hv : 0 ≤ value) :
    (((main env (.ok (some (some value))) net now).outputs).lookup "alert" = some "true" ↔
      mainThreshold env ≤ value) ∧
    ((main env (.ok (some (some (mainThreshold env)))) net now).outputs).lookup "alert" =
      some "true" := by
  constructor
  · by_cases hc : mainThreshold env ≤ value <;>
      simp [main, hok, coerceCount_some, List.lookup, hc]
  · simp [main, hok, coerceCount_some, List.lookup]

/-- C3 witness: with threshold 100 configured, a read value of exactly
100 (the boundary case) produces `alert=true`. -/
theorem C3_alert_iff_value_ge_threshold_witness :
    (((main envFull (.ok (some (some 100))) netAllOk "T").outputs).lookup "alert" =
        some "true" ↔ mainThreshold envFull ≤ 100) ∧
    ((main envFull (.ok (some (some (mainThreshold envFull)))) netAllOk "T").outputs).lookup
        "alert" = some "true" :=
  C3_alert_iff_value_ge_threshold envFull netAllOk "T" 100 (by decide) (by decide)

/-- C4: threshold handling never aborts: an unset `THRESHOLD_VALUE`
yields 100 without a warning, an empty or non-numeric one yields 100
with a warning, and a numeric one yields the parsed integer. -/
theorem C4_threshold_parsing (s : String) (n : Int)
    (hne : pyNonEmpty (pyStrip s) = true) (hn : pyInt? (pyStrip s) = some n) :
    parseThresholdW none = (100, false) ∧
    parseThresholdW (some "") = (100, true) ∧
    parseThresholdW (some "abc") = (100, true) ∧
    parseThresholdW (some "50") = (50, false) ∧
    parseThresholdW (some s) = (n, false) := by
  refine ⟨by decide, by decide, by decide, by decide, ?_⟩
  simp [parseThresholdW, hne, hn]

/-- C4 witness: the general numeric clause instantiated at `"50"`. -/
theorem C4_threshold_parsing_witness :
    parseThresholdW none = (100, false) ∧
    parseThresholdW (some "") = (100, true) ∧
    parseThresholdW (some "abc") = (100, true) ∧
    parseThresholdW (some "50") = (50, false) ∧
    parseThresholdW (some "50") = (50, false) :=
  C4_threshold_parsing "50" 50 (by decide) (by decide)

/-- C5: when any of `ORACLE_USER`, `ORACLE_PASSWORD`, `ORACLE_DSN` is
unset or empty, `main` returns exit code 1 with no SQL ever handed to
the database, no outputs, and no notification attempt. -/
theorem C5_missing_config_short_circuits (env : Env)
    (db : Except Unit (Option (Option Int))) (net : SmtpNet) (now : String)
    (h : mandatoryOk env = false) :
    main env db net now =
      { exitCode := 1, outputs := [], sqlExecuted := none, emailCalls := [] } := by
  simp [main, h]

/-- C5 witness: the all-unset environment short-circuits. -/
theorem C5_missing_config_short_circuits_witness :
    main envEmpty (.ok (some (some 5))) netAllOk "T" =
      { exitCode := 1, outputs := [], sqlExecuted := none, emailCalls := [] } :=
  C5_missing_config_short_circuits envEmpty (.ok (some (some 5))) netAllOk "T" (by decide)

/-- C7: a missing row or NULL column coerces to metric value 0; under
the COUNT(*) guarantee that a present value is non-negative, the
coerced metric value is always a non-negative integer; and `main`
reports `metric_value=0` for an empty fetch. -/
theorem C7_null_result_coerces_to_zero (env : Env) (net : SmtpNet) (now : String)
    (r : Option (Option Int)) (hok : mandatoryOk env = true)
    (hr : ∀ v : Int, r = some (some v) → 0 ≤ v) :
    coerceCount none = 0 ∧ coerceCount (some none) = 0 ∧ 0 ≤ coerceCount r ∧
    ((main env (.ok none) net now).outputs).lookup "metric_value" = some "0" := by
  refine ⟨rfl, rfl, ?_, ?_⟩
  · match r with
    | none => simp [coerceCount]
    | some none => simp [coerceCount]
    | some (some v) => rw [coerceCount_some]; exact hr v rfl
  · simp [main, hok, List.lookup, coerceCount]
    rfl

/-- C7 witness: instantiated at an empty fetch result. -/
theorem C7_null_result_coerces_to_zero_witness :
    coerceCount none = 0 ∧ coerceCount (some none) = 0 ∧
    0 ≤ coerceCount (some (some 7)) ∧
    ((main envFull (.ok none) netAllOk "T").outputs).lookup "metric_value" = some "0" :=
  C7_null_result_coerces_to_zero envFull netAllOk "T" (some (some 7)) (by decide)
    (by intro v hv; cases hv; decide)

/-- C8: when the coerced metric value is strictly below the threshold,
the Notifier is not invoked (no `send_email_alert` call) and the run
emits `alert=false`, the read value, the threshold, and
`email_sent=false`, with exit code 0. -/
theorem C8_below_threshold_skips_notifier (env : Env) (net : SmtpNet) (now : String)
    (r : Option (Option Int)) (hok : mandatoryOk env = true)
    (hlt : coerceCount r < mainThreshold env) :
    main env (.ok r) net now =
      { exitCode := 0
        outputs := [("alert", "false"), ("metric_name", metricNameOf env),
                    ("metric_value", toString (coerceCount r)),
                    ("threshold", toString (mainThreshold env)),
                    ("utc_time", now), ("email_sent", "false")]
        sqlExecuted := some sql
        emailCalls := [] } := by
  have ha : decide (coerceCount r ≥ mainThreshold env) = false :=
    decide_eq_false (not_le.mpr hlt)
  simp [main, hok, ha]

/-- C8 witness: value 50 against threshold 100. -/
theorem C8_below_threshold_skips_notifier_witness :
    main envFull (.ok (some (some 50))) netAllOk "T" =
      { exitCode := 0
        outputs := [("alert", "false"),
                    ("metric_name", "L2_TO_MES_MESSAGES_STATUS_0_LAST_15_MIN"),
                    ("metric_value", "50"), ("threshold", "100"), ("utc_time", "T"),
                    ("email_sent", "false")]
        sqlExecuted := some sql
        emailCalls := [] } :=
  C8_below_threshold_skips_notifier envFull netAllOk "T" (some (some 50))
    (by decide) (by decide)

/-- C1 as amended: when the mandatory Oracle configuration is present,
every run (success or query failure) emits exactly one OutcomeRecord,
namely the six outputs in order; when it is missing, the run emits no
outputs at all. -/
theorem C1_record_emission (env : Env) (db : Except Unit (Option (Option Int)))
    (net : SmtpNet) (now : String) :
    (mandatoryOk env = true →
      (main env db net now).outputs.map Prod.fst =
        ["alert", "metric_name", "metric_value", "threshold", "utc_time", "email_sent"]) ∧
    (mandatoryOk env = false → (main env db net now).outputs = []) := by
  constructor
  · intro h
    cases db <;> simp [main, h]
  · intro h
    simp [main, h]

/-- C1 witness: the query-failure path emits the six-field record. -/
theorem C1_record_emission_witness :
    (main envFull (.error ()) netAllOk "T").outputs.map Prod.fst =
      ["alert", "metric_name", "metric_value", "threshold", "utc_time", "email_sent"] :=
  (C1_record_emission envFull (.error ()) netAllOk "T").1 (by decide)

/-- C1 counterexample: with the mandatory Oracle configuration missing,
`main` returns exit code 1 without emitting any OutcomeRecord, refuting
"exactly one OutcomeRecord is emitted on every failure path". -/
theorem C1_missing_config_emits_nothing :
    (main envEmpty (.ok (some (some 150))) netAllOk "T").outputs = [] ∧
    (main envEmpty (.ok (some (some 150))) netAllOk "T").exitCode = 1 := by
  exact ⟨rfl, rfl⟩

/-- C2 as amended: on a query failure `main` emits `alert=true`,
`metric_name="ORACLE_CHECK_FAILED"`, `metric_value=0`, the effective
threshold, and always `email_sent=false` (the outputs are written
before the best-effort notification attempt, whose result is
discarded); one notification attempt is made and the exit code is 1. -/
theorem C2_query_failure_record (env : Env) (net : SmtpNet) (now : String)
    (hok : mandatoryOk env = true) :
    main env (.error ()) net now =
      { exitCode := 1
        outputs := [("alert", "true"), ("metric_name", "ORACLE_CHECK_FAILED"),
                    ("metric_value", "0"), ("threshold", toString (mainThreshold env)),
                    ("utc_time", now), ("email_sent", "false")]
        sqlExecuted := some sql
        emailCalls := [("ORACLE_CHECK_FAILED", 0, mainThreshold env, now)] } := by
  simp [main, hok]

/-- C2 witness: a query failure with the full configuration. -/
theorem C2_query_failure_record_witness :
    main envFull (.error ()) netAllOk "T" =
      { exitCode := 1
        outputs := [("alert", "true"), ("metric_name", "ORACLE_CHECK_FAILED"),
                    ("metric_value", "0"), ("threshold", "100"), ("utc_time", "T"),
                    ("email_sent", "false")]
        sqlExecuted := some sql
        emailCalls := [("ORACLE_CHECK_FAILED", 0, 100, "T")] } :=
  C2_query_failure_record envFull netAllOk "T" (by decide)

/-- C2 counterexample: on the query-failure path with a fully working
notifier, the best-effort attempt succeeds (`send_email_alert` returns
true), yet the emitted record says `email_sent=false` — so `email_sent`
does not reflect the result of the notification attempt. -/
theorem C2_email_sent_not_reflected :
    send_email_alert "ORACLE_CHECK_FAILED" 0 100 "T" envFull netAllOk = true ∧
    ((main envFull (.error ()) netAllOk "T").outputs).lookup "email_sent" =
      some "false" ∧
    (main envFull (.error ()) netAllOk "T").emailCalls =
      [("ORACLE_CHECK_FAILED", 0, 100, "T")] := by
  exact ⟨rfl, rfl, rfl⟩

/-- C6: `send_email_alert` is a total boolean function (no exception
can escape it): it returns true exactly on a confirmed delivery, and
every failure of its body yields a `false` return. -/
theorem C6_notifier_never_raises (mn : String) (mv th : Int) (ut : String)
    (env : Env) (net : SmtpNet) :
    send_email_alert mn mv th ut env net = confirmedDelivery env net ∧
    (∀ e : EmailErr, sendEmailBody mn mv th ut env net = .error e →
      send_email_alert mn mv th ut env net = false) := by
  refine ⟨send_email_alert_eq_confirmed mn mv th ut env net, ?_⟩
  intro e he
  simp [send_email_alert, he]

/-- C6 witness: with no SMTP configuration the body fails with a missing
`SMTP_SERVER` and the call returns false. -/
theorem C6_notifier_never_raises_witness :
    send_email_alert "M" 5 3 "T" envEmpty netAllOk = false :=
  (C6_notifier_never_raises "M" 5 3 "T" envEmpty netAllOk).2
    (.missingConfig "SMTP_SERVER") rfl

/-- C9: a missing `TO_EMAILS` value, or an empty one (which splits into
a single blank entry that yields no usable recipient), makes
`send_email_alert` return false without raising. -/
theorem C9_empty_recipients_returns_false (mn : String) (mv th : Int) (ut : String)
    (env : Env) (net : SmtpNet)
    (h : env.to_emails = none ∨ env.to_emails = some "") :
    send_email_alert mn mv th ut env net = false := by
  rw [send_email_alert_eq_confirmed]
  have hre : (usableRecipients (splitComma "")).isEmpty = true := by decide
  rcases h with h | h <;> simp [confirmedDelivery, h, hre]

/-- C9 witness: the otherwise fully-configured environment with an empty
recipient list and a working transport still returns false. -/
theorem C9_empty_recipients_returns_false_witness :
    send_email_alert "M" 5 3 "T" { envFull with to_emails := some "" } netAllOk = false :=
  C9_empty_recipients_returns_false "M" 5 3 "T"
    { envFull with to_emails := some "" } netAllOk (Or.inr rfl)

/-- The same environment with `MESSAGE_STATUS` and `MESSAGE_TABLE`
replaced. -/
def withMsgConfig (env : Env) (s t : Option String) : Env :=
  { env with message_status := s, message_table := t }

/-- The emitted outputs without the `metric_name` field. -/
def outputsSansName (r : MainResult) : List (String × String) :=
  r.outputs.filter (fun p => !(p.1 == "metric_name"))

/-- C10: two runs that differ only in `MESSAGE_STATUS` and/or
`MESSAGE_TABLE` execute the same SQL, return the same exit code, make
the same number of notification attempts, and emit identical outputs
except for the `metric_name` field. -/
theorem C10_message_config_affects_only_metric_name (env : Env) (s t : Option String)
    (db : Except Unit (Option (Option Int))) (net : SmtpNet) (now : String) :
    (main (withMsgConfig env s t) db net now).exitCode = (main env db net now).exitCode ∧
    (main (withMsgConfig env s t) db net now).sqlExecuted = (main env db net now).sqlExecuted ∧
    outputsSansName (main (withMsgConfig env s t) db net now) =
      outputsSansName (main env db net now) ∧
    (main (withMsgConfig env s t) db net now).emailCalls.length =
      (main env db net now).emailCalls.length := by
  have hm : mandatoryOk (withMsgConfig env s t) = mandatoryOk env := rfl
  have hth : mainThreshold (withMsgConfig env s t) = mainThreshold env := rfl
  have hc : confirmedDelivery (withMsgConfig env s t) net = confirmedDelivery env net := rfl
  cases hok : mandatoryOk env
  · simp [main, hm, hok, outputsSansName]
  · cases db with
    | error e => simp [main, hm, hth, hok, outputsSansName]
    | ok r =>
      cases halert : decide (coerceCount r ≥ mainThreshold env) <;>
        simp [main, hm, hth, hok, halert, outputsSansName,
          send_email_alert_eq_confirmed, hc]

end CheckMessages
